import Mathlib

/-!
Verification development for the chat-with-fred backend.

The definitions below are a shallow embedding of the series-resolution and
date-range logic in src/backend/schemas.py, src/backend/analysis.py and
src/backend/vector_db.py.  External collaborators (the reasoning oracle, the
semantic index, the catalog search service, the embedding function) are
modelled as explicit behaviours that either return a value or raise an
exception; Python floats are modelled as rationals; Python dicts with string
values are modelled as association lists.
-/

/-- Outcome of a Python call that may raise an exception.  The payload of the
exception is irrelevant to the control flow being verified, so it is dropped. -/
inductive Res (α : Type) : Type
  | ok (a : α) : Res α
  | exn : Res α
deriving DecidableEq, Repr

/-- Whether a Res is the exceptional outcome. -/
def Res.isExn {α : Type} : Res α → Bool
  | .ok _ => false
  | .exn => true

/-- Truthiness of a Python Optional string: None and the empty string are falsy. -/
def pyTruthyStr : Option String → Bool
  | none => false
  | some s => decide (s ≠ "")

/-- Truthiness of a Python value that is either None or a list:
None and the empty list are falsy. -/
def pyTruthyOptList {α : Type} : Option (List α) → Bool
  | none => false
  | some l => !l.isEmpty

/-- DEFAULT_REGION from backend/config/config.py. -/
def DEFAULT_REGION : String := "United States"

/-- SeriesSelection from backend/schemas.py: the outcome of series resolution. -/
structure SeriesSelection where
  series_id : Option String
  confidence : ℚ
  reasoning : String
  region_match : Bool
deriving DecidableEq, Repr

/-- SeriesSelection.is_valid from backend/schemas.py:
bool(self.series_id and self.confidence > 0.7 and self.region_match).
Python truthiness of series_id makes both None and the empty string fail. -/
def SeriesSelection.is_valid (s : SeriesSelection) : Bool :=
  pyTruthyStr s.series_id && decide (mkRat 7 10 < s.confidence) && s.region_match

/-- Modelled from the spec: the validity predicate as the spec words it,
series_id different from null AND confidence strictly above 0.7 AND
region_match; used only to compare the spec wording with the code. -/
def specSeriesSelectionValid (s : SeriesSelection) : Bool :=
  s.series_id.isSome && decide (mkRat 7 10 < s.confidence) && s.region_match

/-! Date model.  Python datetime.date values are triples (year, month, day);
calendar conversions follow the standard civil-from-days algorithms, and the
supported year range of CPython datetime (MINYEAR = 1, MAXYEAR = 9999) is
enforced where the code performs date arithmetic. -/

/-- Calendar date, mirroring Python datetime.date. -/
structure PyDate where
  year : Int
  month : Nat
  day : Nat
deriving DecidableEq, Repr

/-- Gregorian leap-year test. -/
def isLeapYear (y : Int) : Bool :=
  y % 4 == 0 && (y % 100 != 0 || y % 400 == 0)

/-- Number of days in a month of a given year. -/
def daysInMonth (y : Int) (m : Nat) : Nat :=
  if m = 2 then (if isLeapYear y then 29 else 28)
  else if m = 4 ∨ m = 6 ∨ m = 9 ∨ m = 11 then 30
  else 31

/-- Days since the civil epoch 1970-01-01 (rata-die style conversion). -/
def PyDate.toRD (dt : PyDate) : Int :=
  let y : Int := if dt.month ≤ 2 then dt.year - 1 else dt.year
  let era : Int := y.ediv 400
  let yoe : Int := y - era * 400
  let mp : Int := (Int.ofNat dt.month + 9) % 12
  let doy : Int := (153 * mp + 2).ediv 5 + Int.ofNat dt.day - 1
  let doe : Int := yoe * 365 + yoe.ediv 4 - yoe.ediv 100 + doy
  era * 146097 + doe - 719468

/-- Civil date from days since 1970-01-01. -/
def PyDate.ofRD (z0 : Int) : PyDate :=
  let z := z0 + 719468
  let era := z.ediv 146097
  let doe := z - era * 146097
  let yoe := (doe - doe.ediv 1460 + doe.ediv 36524 - doe.ediv 146096).ediv 365
  let y := yoe + era * 400
  let doy := doe - (365 * yoe + yoe.ediv 4 - yoe.ediv 100)
  let mp := (5 * doy + 2).ediv 153
  let d := doy - (153 * mp + 2).ediv 5 + 1
  let m := mp + (if mp < 10 then 3 else -9)
  ⟨y + (if m ≤ 2 then 1 else 0), m.toNat, d.toNat⟩

/-- Subtraction of whole days, as timedelta(days=n) subtraction on a date. -/
def PyDate.subDays (dt : PyDate) (n : Int) : PyDate :=
  PyDate.ofRD (dt.toRD - n)

/-- Subtraction of calendar months with end-of-month clamping, as
relativedelta(months=n) subtraction. -/
def PyDate.subMonths (dt : PyDate) (n : Int) : PyDate :=
  let total : Int := dt.year * 12 + (Int.ofNat dt.month - 1) - n
  let y := total.ediv 12
  let m := (total.emod 12).toNat + 1
  ⟨y, m, min dt.day (daysInMonth y m)⟩

/-- Subtraction of calendar years with Feb-29 clamping, as
relativedelta(years=n) subtraction. -/
def PyDate.subYears (dt : PyDate) (n : Int) : PyDate :=
  let y := dt.year - n
  ⟨y, dt.month, min dt.day (daysInMonth y dt.month)⟩

/-- Left-pad a natural number with zeros to the given width. -/
def padNat (width n : Nat) : String :=
  let s := toString n
  String.mk (List.replicate (width - s.length) '0') ++ s

/-- ISO date string YYYY-MM-DD, as date.isoformat() for in-range dates. -/
def PyDate.isoformat (dt : PyDate) : String :=
  padNat 4 dt.year.toNat ++ "-" ++ padNat 2 dt.month ++ "-" ++ padNat 2 dt.day

/-- Decimal value of a digit character. -/
def digitVal (c : Char) : Nat := c.toNat - 48

/-- Month component of strptime with format directive m: the regex
alternation 1[0-2] or 0[1-9] or [1-9], longest alternative first.
Returns the parsed value and the unconsumed characters. -/
def parseMonthMD : List Char → Option (Nat × List Char)
  | c0 :: c1 :: rest =>
    if c0 = '1' ∧ (c1 = '0' ∨ c1 = '1' ∨ c1 = '2') then some (10 + digitVal c1, rest)
    else if c0 = '0' ∧ c1.isDigit ∧ c1 ≠ '0' then some (digitVal c1, rest)
    else if c0.isDigit ∧ c0 ≠ '0' then some (digitVal c0, c1 :: rest)
    else none
  | [c0] => if c0.isDigit ∧ c0 ≠ '0' then some (digitVal c0, []) else none
  | [] => none

/-- Day component of strptime with format directive d: the regex
alternation 3[01] or [12] digit or 0[1-9] or [1-9]. -/
def parseDayMD : List Char → Option (Nat × List Char)
  | c0 :: c1 :: rest =>
    if c0 = '3' ∧ (c1 = '0' ∨ c1 = '1') then some (30 + digitVal c1, rest)
    else if (c0 = '1' ∨ c0 = '2') ∧ c1.isDigit then some (10 * digitVal c0 + digitVal c1, rest)
    else if c0 = '0' ∧ c1.isDigit ∧ c1 ≠ '0' then some (digitVal c1, rest)
    else if c0.isDigit ∧ c0 ≠ '0' then some (digitVal c0, c1 :: rest)
    else none
  | [c0] => if c0.isDigit ∧ c0 ≠ '0' then some (digitVal c0, []) else none
  | [] => none

/-- Year component of strptime with format directive Y: exactly four digits,
which must also exhaust the input. -/
def parseYear4 : List Char → Option Nat
  | [a, b, c, d] =>
    if a.isDigit ∧ b.isDigit ∧ c.isDigit ∧ d.isDigit then
      some (1000 * digitVal a + 100 * digitVal b + 10 * digitVal c + digitVal d)
    else none
  | _ => none

/-- datetime.strptime(s, m-d-Y format) followed by the datetime constructor
validity checks (year at least 1, day within the month). -/
def strptimeMDY (s : String) : Except String PyDate :=
  match parseMonthMD s.data with
  | none => .error "time data does not match format"
  | some (m, r1) =>
    match r1 with
    | '-' :: r2 =>
      match parseDayMD r2 with
      | none => .error "time data does not match format"
      | some (d, r3) =>
        match r3 with
        | '-' :: r4 =>
          match parseYear4 r4 with
          | none => .error "time data does not match format"
          | some y =>
            if 1 ≤ y ∧ d ≤ daysInMonth (Int.ofNat y) m then .ok ⟨Int.ofNat y, m, d⟩
            else .error "day is out of range for month"
        | _ => .error "time data does not match format"
    | _ => .error "time data does not match format"

/-- Period enum from backend/schemas.py. -/
inductive Period : Type
  | day
  | week
  | month
  | year
  | current
  | exact
deriving DecidableEq, Repr

/-- Result of date arithmetic, rejected when the computed date leaves the
year range supported by Python datetime (1 to 9999). -/
def checkDateRange (dt : PyDate) : Except String String :=
  if 1 ≤ dt.year ∧ dt.year ≤ 9999 then .ok dt.isoformat
  else .error "date value out of range"

/-- Duration branch of GetDateRequests._get_date: reached when the period is
not current and the exact branch did not fire.  Python raises when the
duration is falsy (None or 0) or negative, then dispatches on the period;
a leftover exact or current period raises the invalid-period error. -/
def getDateDuration (now : PyDate) (period : Period) (duration : Option Int) :
    Except String String :=
  match duration with
  | none => .error "Duration must be non-negative if period is not current or exact"
  | some k =>
    if k = 0 ∨ k < 0 then
      .error "Duration must be non-negative if period is not current or exact"
    else
      match period with
      | .day => checkDateRange (now.subDays k)
      | .week => checkDateRange (now.subDays (7 * k))
      | .month => checkDateRange (now.subMonths k)
      | .year => checkDateRange (now.subYears k)
      | _ => .error "Invalid period"

/-- GetDateRequests._get_date from backend/schemas.py, with the clock passed
explicitly in place of datetime.now().  The exact branch fires only when the
period is exact and exact_date is truthy (present and non-empty). -/
def getDate (now : PyDate) (period : Period) (duration : Option Int)
    (exact_date : Option String) : Except String String :=
  if period = Period.current then .ok now.isoformat
  else
    match period, exact_date with
    | Period.exact, some s =>
      if s = "" then getDateDuration now period duration
      else
        match strptimeMDY s with
        | .error e => .error e
        | .ok dt => .ok dt.isoformat
    | _, _ => getDateDuration now period duration

/-- GetDateRequest from backend/schemas.py: one side of a date range. -/
structure GetDateRequest where
  period : Period
  duration : Option Int := none
  exact_date : Option String := none
deriving DecidableEq, Repr

/-- GetDateRequests from backend/schemas.py: start and end specifications. -/
structure GetDateRequests where
  start_date : GetDateRequest
  end_date : GetDateRequest
deriving DecidableEq, Repr

/-- GetDateRequests.extract_date_range: the start side resolves to None when
its period is current, otherwise through _get_date; the end side always goes
through _get_date.  An exception from either side propagates. -/
def GetDateRequests.extract_date_range (now : PyDate) (r : GetDateRequests) :
    Except String (Option String × String) :=
  match (if r.start_date.period = Period.current then Except.ok none
         else (getDate now r.start_date.period r.start_date.duration
                 r.start_date.exact_date).map some) with
  | .error e => .error e
  | .ok s =>
    match getDate now r.end_date.period r.end_date.duration r.end_date.exact_date with
    | .error e => .error e
    | .ok e => .ok (s, e)

/-- Clock fixed at 2024-06-15, as in the date-determinism property. -/
def clock20240615 : PyDate := ⟨2024, 6, 15⟩

/-! Candidate-record model: SeriesMapping and its semantic-index storage
representation.  Python dict values that the code reads are strings, so
dictionaries are modelled as association lists of strings; lookup returns the
first binding, matching unique-key Python dicts. -/

/-- Lookup with default in an association list, as dict.get(key, default). -/
def dictGetD (d : List (String × String)) (k default_ : String) : String :=
  match d.find? (fun q => q.1 = k) with
  | some q => q.2
  | none => default_

/-- Python expression (x or "") on an optional string: the left operand is
returned when truthy, otherwise the empty string. -/
def pyOrEmptyStr : Option String → String
  | none => ""
  | some s => if s = "" then "" else s

/-- SeriesMapping from backend/schemas.py. -/
structure SeriesMapping where
  series_id : String
  title : String
  keywords : List String
  region : String
  category : String
  description : String
  frequency : String
  units : String
  seasonal_adjustment : Option String
  common_uses : List String
  related_concepts : List String
  metadata : List (String × String)
  embedding_id : String
deriving DecidableEq, Repr

/-- Shape of the flattened Pinecone record written by to_pinecone_dict; its
field names are the dictionary keys used by the code. -/
structure PineconeDict where
  series_id : String
  title : String
  keywords : List String
  region : String
  category : String
  description : String
  frequency : String
  units : String
  seasonal_adjustment : String
  common_uses : List String
  related_concepts : List String
  metadata_title : String
  metadata_units : String
  metadata_frequency : String
  metadata_notes : String
  metadata_last_updated : String
deriving DecidableEq, Repr

/-- SeriesMapping.to_pinecone_dict from backend/schemas.py: flattens the
metadata fields the code wants to preserve and replaces a falsy
seasonal_adjustment by the empty string. -/
def SeriesMapping.to_pinecone_dict (m : SeriesMapping) : PineconeDict where
  series_id := m.series_id
  title := m.title
  keywords := m.keywords
  region := m.region
  category := m.category
  description := m.description
  frequency := m.frequency
  units := m.units
  seasonal_adjustment := pyOrEmptyStr m.seasonal_adjustment
  common_uses := m.common_uses
  related_concepts := m.related_concepts
  metadata_title := dictGetD m.metadata "title" ""
  metadata_units := dictGetD m.metadata "units" ""
  metadata_frequency := dictGetD m.metadata "frequency" ""
  metadata_notes := dictGetD m.metadata "notes" ""
  metadata_last_updated := dictGetD m.metadata "last_updated" ""

/-- SeriesMapping.from_pinecone_dict from backend/schemas.py: rebuilds the
metadata dictionary from the five flattened keys and recomputes the
embedding identifier from the series identifier. -/
def SeriesMapping.from_pinecone_dict (d : PineconeDict) : SeriesMapping where
  series_id := d.series_id
  title := d.title
  keywords := d.keywords
  region := d.region
  category := d.category
  description := d.description
  frequency := d.frequency
  units := d.units
  seasonal_adjustment := some d.seasonal_adjustment
  common_uses := d.common_uses
  related_concepts := d.related_concepts
  metadata := [("title", d.metadata_title), ("units", d.metadata_units),
               ("frequency", d.metadata_frequency), ("notes", d.metadata_notes),
               ("last_updated", d.metadata_last_updated)]
  embedding_id := "series_" ++ d.series_id

/-- Sample mapping with seasonal_adjustment absent, default embedding_id and
an empty metadata dictionary, as produced by the SeriesMapping defaults. -/
def sampleMappingNoSA : SeriesMapping :=
  ⟨"GDP", "Gross Domestic Product", [], "United States", "GDP", "", "Quarterly",
    "Billions", none, [], [], [], ""⟩

/-- Sample fully-populated mapping whose stored representation loses nothing. -/
def sampleMappingFull : SeriesMapping :=
  ⟨"GDP", "Gross Domestic Product", ["gdp"], "United States", "GDP", "desc",
    "Quarterly", "Billions", some "SAAR", ["analysis"], ["output"],
    [("title", "T"), ("units", "U"), ("frequency", "F"), ("notes", "N"),
     ("last_updated", "L")], "series_GDP"⟩

/-! Vector search (backend/vector_db.py).  The Pinecone query response is
either a falsy value (modelled none) or an object with a list of matches,
each carrying the stored metadata record. -/

/-- One Pinecone query match: only its metadata is consumed by the code. -/
structure QueryMatch where
  metadata : PineconeDict
deriving DecidableEq, Repr

/-- Pinecone query response consumed by VectorDBManager.search_series. -/
structure PineconeQueryResponse where
  matches' : List QueryMatch
deriving DecidableEq, Repr

/-- VectorDBManager.search_series from backend/vector_db.py, as a function of
the index query response: when the response is falsy or has no matches the
code returns the value of logger.info, which is None; otherwise it maps
from_pinecone_dict over the matches. -/
def search_series (results : Option PineconeQueryResponse) : Option (List SeriesMapping) :=
  match results with
  | none => none
  | some resp =>
    if resp.matches'.isEmpty then none
    else some (resp.matches'.map (fun mt => SeriesMapping.from_pinecone_dict mt.metadata))

/-! Claim C3: the validity predicate. -/

/-- C3 counterexample: a selection whose series_id is present but equal to the
empty string has series_id different from null, confidence above 0.7 and a
region match, so the claimed predicate accepts it, yet is_valid rejects it
because Python truthiness treats the empty string like None. -/
theorem C3_counterexample :
    SeriesSelection.is_valid ⟨some "", mkRat 4 5, "selected", true⟩ = false ∧
    specSeriesSelectionValid ⟨some "", mkRat 4 5, "selected", true⟩ = true := by
  constructor <;> decide

/-- C3 amended: is_valid holds iff series_id is present and non-empty, the
confidence is strictly above 0.7 and region_match holds; and it depends on
nothing but these three fields (the reasoning text is irrelevant). -/
theorem C3_is_valid_characterization (s : SeriesSelection) :
    (s.is_valid = true ↔
      (∃ t, s.series_id = some t ∧ t ≠ "") ∧ mkRat 7 10 < s.confidence ∧
        s.region_match = true) ∧
    (∀ s' : SeriesSelection, s.series_id = s'.series_id →
      s.confidence = s'.confidence → s.region_match = s'.region_match →
      s.is_valid = s'.is_valid) := by
  constructor
  · cases h : s.series_id with
    | none => simp [SeriesSelection.is_valid, pyTruthyStr, h]
    | some t => simp [SeriesSelection.is_valid, pyTruthyStr, h, and_assoc]
  · intro s' h1 h2 h3
    simp [SeriesSelection.is_valid, h1, h2, h3]

/-- C3 witness: the characterization applied to a concrete valid selection and
a concrete field-for-field twin differing only in reasoning. -/
theorem C3_witness :
    SeriesSelection.is_valid ⟨some "GDP", mkRat 9 10, "a", true⟩ =
      SeriesSelection.is_valid ⟨some "GDP", mkRat 9 10, "b", true⟩ :=
  (C3_is_valid_characterization ⟨some "GDP", mkRat 9 10, "a", true⟩).2
    ⟨some "GDP", mkRat 9 10, "b", true⟩ rfl rfl rfl

/-! Claim C6: date-range determinism with the clock fixed at 2024-06-15. -/

/-- C6: with now = 2024-06-15, a start of period year and duration 10 resolves
to 2014-06-15, an end of period current resolves to 2024-06-15, an exact date
01-01-2020 resolves to 2020-01-01, a start of period current resolves to None
rather than to today, and in any successful resolution the start side is None
exactly when its period is current (so the end side is never None, being a
plain string by construction). -/
theorem C6_date_resolution_determinism :
    getDate clock20240615 Period.year (some 10) none = .ok "2014-06-15" ∧
    getDate clock20240615 Period.current none none = .ok "2024-06-15" ∧
    getDate clock20240615 Period.exact none (some "01-01-2020") = .ok "2020-01-01" ∧
    GetDateRequests.extract_date_range clock20240615
      ⟨⟨Period.current, none, none⟩, ⟨Period.current, none, none⟩⟩ =
        .ok (none, "2024-06-15") ∧
    (∀ (r : GetDateRequests) (s : Option String) (e : String),
      r.extract_date_range clock20240615 = .ok (s, e) →
      (s = none ↔ r.start_date.period = Period.current)) := by
  refine ⟨by rfl, by rfl, by rfl, by rfl, ?_⟩
  intro r s e h
  by_cases hc : r.start_date.period = Period.current
  · rcases hend : getDate clock20240615 r.end_date.period r.end_date.duration
        r.end_date.exact_date with e' | v <;>
      simp [GetDateRequests.extract_date_range, hc, hend, Except.map] at h
    obtain ⟨h1, h2⟩ := h
    subst h1
    simp [hc]
  · rcases hstart : getDate clock20240615 r.start_date.period r.start_date.duration
        r.start_date.exact_date with e' | v <;>
      rcases hend : getDate clock20240615 r.end_date.period r.end_date.duration
          r.end_date.exact_date with e'' | w <;>
      simp [GetDateRequests.extract_date_range, hc, hstart, hend, Except.map] at h
    obtain ⟨h1, h2⟩ := h
    subst h1
    simp [hc]

/-- C6 witness: the start-side characterization applied to a concrete request
with a non-current start, whose start resolves to a date rather than None. -/
theorem C6_witness :
    ((some "2014-06-15" : Option String) = none ↔
      (⟨⟨Period.year, some 10, none⟩, ⟨Period.current, none, none⟩⟩
        : GetDateRequests).start_date.period = Period.current) :=
  C6_date_resolution_determinism.2.2.2.2
    ⟨⟨Period.year, some 10, none⟩, ⟨Period.current, none, none⟩⟩
    (some "2014-06-15") "2024-06-15" (by rfl)

/-! Claim C7: validation behaviour of the single-date resolver. -/

/-- Modelled from the spec: the MM-DD-YYYY pattern of the TimeReference
invariant, two-digit month, two-digit day, four-digit year, dash-separated
(this is also the regex pattern on the GetDateRequest exact_date field). -/
def specMatchesMMDDYYYY (s : String) : Bool :=
  match s.data with
  | [a, b, s1, c, d, s2, e, f, g, h2] =>
    a.isDigit && b.isDigit && (s1 == '-') && c.isDigit && d.isDigit &&
      (s2 == '-') && e.isDigit && f.isDigit && g.isDigit && h2.isDigit
  | _ => false

/-- Modelled from the spec: the TimeReference invariant, duration required and
at least 1 for day/week/month/year and forbidden otherwise, exact_date
required and matching MM-DD-YYYY for exact and forbidden otherwise. -/
def specWellFormedTimeReference (r : GetDateRequest) : Bool :=
  match r.period with
  | Period.current => r.duration.isNone && r.exact_date.isNone
  | Period.exact =>
    (match r.exact_date with
     | some s => specMatchesMMDDYYYY s
     | none => false) && r.duration.isNone
  | _ =>
    (match r.duration with
     | some k => decide (1 ≤ k)
     | none => false) && r.exact_date.isNone

/-- Whether an Except value is a success. -/
def exceptOk {ε α : Type} : Except ε α → Bool
  | .ok _ => true
  | .error _ => false

/-- C7 counterexample: 02-30-2020 satisfies the TimeReference invariant (it
matches the syntactic MM-DD-YYYY pattern) yet _get_date raises, because the
components do not form a real calendar date; and 1-1-2020 violates the
pattern yet _get_date succeeds, because the underlying strptime parser also
accepts single-digit months and days.  Both directions of the claim fail. -/
theorem C7_counterexample :
    (specWellFormedTimeReference ⟨Period.exact, none, some "02-30-2020"⟩ = true ∧
      exceptOk (getDate clock20240615 Period.exact none (some "02-30-2020")) = false) ∧
    (specWellFormedTimeReference ⟨Period.exact, none, some "1-1-2020"⟩ = false ∧
      getDate clock20240615 Period.exact none (some "1-1-2020") = .ok "2020-01-01") :=
  ⟨⟨by rfl, by rfl⟩, ⟨by rfl, by rfl⟩⟩

/-- Periods whose resolution is relative to the clock. -/
def isRelPeriod : Period → Bool
  | .day => true
  | .week => true
  | .month => true
  | .year => true
  | _ => false

/-- Date computed by the relative branch of _get_date before the range check. -/
def relDateResult (now : PyDate) (period : Period) (k : Int) : PyDate :=
  match period with
  | .day => now.subDays k
  | .week => now.subDays (7 * k)
  | .month => now.subMonths k
  | .year => now.subYears k
  | _ => now

/-- C7 amended: _get_date raises a validation error when period is exact and
exact_date is absent, and when a relative period comes without a duration; it
returns the parsed ISO date whenever the exact branch parser accepts the
string, the clamped relative date whenever a relative period has duration at
least 1 and the computed date stays within the supported year range, and
today for period current.  Exact dates that the parser rejects (including
syntactically well-formed strings that are not real calendar dates) raise. -/
theorem C7_get_date_validation (now : PyDate) (r : GetDateRequest) :
    (r.period = Period.exact → r.exact_date = none →
      exceptOk (getDate now r.period r.duration r.exact_date) = false) ∧
    (isRelPeriod r.period = true → r.duration = none →
      exceptOk (getDate now r.period r.duration r.exact_date) = false) ∧
    (∀ s dt, r.period = Period.exact → r.exact_date = some s →
      strptimeMDY s = .ok dt →
      getDate now r.period r.duration r.exact_date = .ok dt.isoformat) ∧
    (∀ k, isRelPeriod r.period = true → r.duration = some k → 1 ≤ k →
      1 ≤ (relDateResult now r.period k).year →
      (relDateResult now r.period k).year ≤ 9999 →
      getDate now r.period r.duration r.exact_date =
        .ok (relDateResult now r.period k).isoformat) ∧
    (r.period = Period.current →
      getDate now r.period r.duration r.exact_date = .ok now.isoformat) := by
  obtain ⟨p, dur, ed⟩ := r
  refine ⟨?_, ?_, ?_, ?_, ?_⟩
  · intro hp he
    subst hp; subst he
    rcases dur with _ | k
    · rfl
    · simp [getDate, getDateDuration]
      split <;> rfl
  · intro hp hd
    subst hd
    cases p <;> simp_all [isRelPeriod] <;> rfl
  · intro s dt hp he hparse
    subst hp; subst he
    have hs : s ≠ "" := by
      intro h0
      subst h0
      exact Except.noConfusion
        ((rfl : strptimeMDY "" = Except.error "time data does not match format") ▸ hparse)
    simp only [getDate]
    simp [hs, hparse]
  · intro k hp hd h1 hlo hhi
    subst hd
    have hnk : ¬ (k = 0 ∨ k < 0) := by omega
    cases p <;> simp_all [isRelPeriod, relDateResult, getDate, getDateDuration,
      checkDateRange]
  · intro hp
    subst hp
    rfl

/-- C7 witness: the validation characterization applied at concrete inputs of
each kind, with all hypotheses discharged on concrete data. -/
theorem C7_witness :
    exceptOk (getDate clock20240615 Period.exact none none) = false ∧
    exceptOk (getDate clock20240615 Period.month none none) = false ∧
    getDate clock20240615 Period.exact none (some "01-01-2020") =
      .ok (PyDate.isoformat ⟨2020, 1, 1⟩) ∧
    getDate clock20240615 Period.day (some 3) none =
      .ok (relDateResult clock20240615 Period.day 3).isoformat ∧
    getDate clock20240615 Period.current none none = .ok clock20240615.isoformat :=
  ⟨(C7_get_date_validation clock20240615 ⟨Period.exact, none, none⟩).1 rfl rfl,
   (C7_get_date_validation clock20240615 ⟨Period.month, none, none⟩).2.1 rfl rfl,
   (C7_get_date_validation clock20240615 ⟨Period.exact, none, some "01-01-2020"⟩).2.2.1
     "01-01-2020" ⟨2020, 1, 1⟩ rfl rfl (by rfl),
   (C7_get_date_validation clock20240615 ⟨Period.day, some 3, none⟩).2.2.2.1
     3 rfl rfl (by decide) (by decide) (by decide),
   (C7_get_date_validation clock20240615 ⟨Period.current, none, none⟩).2.2.2.2 rfl⟩

/-! Claim C8: the index-storage round trip on SeriesMapping. -/

/-- C8 counterexample: a mapping with seasonal_adjustment = None, the default
empty embedding_id and an empty metadata dictionary is not reproduced by the
round trip — seasonal_adjustment comes back as the empty string, metadata
comes back with five synthesized keys, and embedding_id is recomputed. -/
theorem C8_counterexample :
    SeriesMapping.from_pinecone_dict (SeriesMapping.to_pinecone_dict sampleMappingNoSA) ≠
      sampleMappingNoSA := by
  decide

/-- C8 amended: the round trip is the identity exactly on the mappings that
the storage representation can express, namely those whose
seasonal_adjustment is present, whose embedding_id is the derived
series_ prefix of series_id, and whose metadata dictionary consists of
exactly the five preserved keys in storage order. -/
theorem C8_round_trip (m : SeriesMapping) (t u f n l : String)
    (hsa : m.seasonal_adjustment.isSome = true)
    (hembed : m.embedding_id = "series_" ++ m.series_id)
    (hmeta : m.metadata = [("title", t), ("units", u), ("frequency", f),
      ("notes", n), ("last_updated", l)]) :
    SeriesMapping.from_pinecone_dict (SeriesMapping.to_pinecone_dict m) = m := by
  obtain ⟨sid, title, kw, reg, cat, desc, freq, units, sa, cu, rc, meta, eid⟩ := m
  simp only at hsa hembed hmeta
  subst hmeta; subst hembed
  rcases sa with _ | sv
  · simp at hsa
  · simp [SeriesMapping.to_pinecone_dict, SeriesMapping.from_pinecone_dict,
      dictGetD, pyOrEmptyStr, List.find?]
    by_cases hs : sv = "" <;> simp [hs]

/-- C8 witness: the round trip applied to a concrete fully-populated mapping. -/
theorem C8_witness :
    SeriesMapping.from_pinecone_dict (SeriesMapping.to_pinecone_dict sampleMappingFull) =
      sampleMappingFull :=
  C8_round_trip sampleMappingFull "T" "U" "F" "N" "L" rfl rfl rfl

/-! Claim C10: the empty-result convention of the vector search. -/

/-- C10: search_series returns None exactly when the query response is falsy
or has an empty match list, and any list it returns is non-empty and is the
per-match reconstruction of the stored mappings. -/
theorem C10_search_series_empty_convention (results : Option PineconeQueryResponse) :
    (search_series results = none ↔
      results = none ∨ ∃ resp, results = some resp ∧ resp.matches' = []) ∧
    (∀ l, search_series results = some l →
      l ≠ [] ∧ ∃ resp, results = some resp ∧
        l = resp.matches'.map (fun mt => SeriesMapping.from_pinecone_dict mt.metadata)) := by
  rcases results with _ | resp
  · simp [search_series]
  · by_cases hm : resp.matches' = []
    · simp [search_series, hm]
    · constructor
      · simp [search_series, hm, List.isEmpty_iff]
      · intro l hl
        simp [search_series, List.isEmpty_iff, hm] at hl
        refine ⟨?_, resp, rfl, hl.symm⟩
        rw [← hl]
        simp [hm]

/-- C10 witness: a one-match response yields the non-empty reconstructed list. -/
theorem C10_witness :
    ([SeriesMapping.from_pinecone_dict (SeriesMapping.to_pinecone_dict sampleMappingFull)]
        ≠ []) ∧
      ∃ resp, (some (PineconeQueryResponse.mk
          [⟨SeriesMapping.to_pinecone_dict sampleMappingFull⟩]) = some resp) ∧
        [SeriesMapping.from_pinecone_dict (SeriesMapping.to_pinecone_dict sampleMappingFull)] =
          resp.matches'.map (fun mt => SeriesMapping.from_pinecone_dict mt.metadata) :=
  (C10_search_series_empty_convention
      (some (PineconeQueryResponse.mk [⟨SeriesMapping.to_pinecone_dict sampleMappingFull⟩]))).2
    [SeriesMapping.from_pinecone_dict (SeriesMapping.to_pinecone_dict sampleMappingFull)]
    (by rfl)

/-! Series resolution engine (SeriesAnalyzer.find_series in
backend/analysis.py).  Each external collaborator is a behaviour that either
returns a value or raises; the function records the calls it makes, in order,
alongside the selection it returns.  The whole body of find_series sits in a
try block whose handler returns the no-match selection, so the model is a
total function: no environment makes it propagate an exception. -/

/-- Raw row of the FRED search results frame, with the optional columns read
through row.get. -/
structure FredRow where
  id : String
  title : String
  group_id : Option String
  notes : Option String
  frequency : Option String
  units : Option String
  seasonal_adjustment : Option String
  last_updated : Option String
deriving DecidableEq, Repr

/-- SeriesAnalyzer._convert_fred_results_to_mappings: the first five rows
(DataFrame.head) become minimally populated mappings.  Dictionary values are
modelled as strings, so the possibly absent row fields are read with their
defaults here. -/
def convert_fred_results_to_mappings (rows : List FredRow) : List SeriesMapping :=
  (rows.take 5).map (fun row =>
    { series_id := row.id
      title := row.title
      keywords := []
      region := ""
      category := row.group_id.getD "Unknown"
      description := row.notes.getD ""
      frequency := row.frequency.getD "Unknown"
      units := row.units.getD "Unknown"
      seasonal_adjustment := row.seasonal_adjustment
      common_uses := []
      related_concepts := []
      metadata := [("title", row.title), ("notes", row.notes.getD ""),
        ("frequency", row.frequency.getD "Unknown"),
        ("units", row.units.getD "Unknown"),
        ("seasonal_adjustment", row.seasonal_adjustment.getD ""),
        ("last_updated", row.last_updated.getD "Unknown")]
      embedding_id := "series_" ++ row.id })

/-- External calls made by find_series, in program order. -/
inductive FSEvent : Type
  | vectorQuery
  | rankVector
  | searchQueryGen
  | catalogSearch
  | rankCatalog
  | enhanceStore
deriving DecidableEq, Repr

/-- Behaviour of the collaborators over one find_series call: one outcome per
call site (each site is reached at most once). -/
structure FindSeriesEnv where
  vectorSearch : Res (Option (List SeriesMapping))
  rankVector : Res SeriesSelection
  searchQueryGen : Res String
  catalogSearch : Res (Option (List FredRow))
  rankCatalog : Res SeriesSelection
  enhanceStore : Res Unit
deriving Repr

/-- Whether the collaborator behind an event raises when called. -/
def eventRaised (env : FindSeriesEnv) : FSEvent → Bool
  | .vectorQuery => env.vectorSearch.isExn
  | .rankVector => env.rankVector.isExn
  | .searchQueryGen => env.searchQueryGen.isExn
  | .catalogSearch => env.catalogSearch.isExn
  | .rankCatalog => env.rankCatalog.isExn
  | .enhanceStore => env.enhanceStore.isExn

/-- Python test (results is None or results.empty) on the FRED search result. -/
def catalogNoneOrEmpty : Option (List FredRow) → Bool
  | none => true
  | some rows => rows.isEmpty

/-- SeriesAnalyzer._create_no_match_selection from backend/analysis.py. -/
def no_match_selection (concept region : String) : SeriesSelection :=
  { series_id := none
    confidence := 0
    reasoning := "No assets found for " ++ concept ++ " in " ++ region
    region_match := false }

/-- Fallback half of find_series (the code after the vector path has failed to
produce a valid selection): rewrite the search query, search the catalog,
short-circuit on an empty result, rank the converted rows, and on a valid
selection enhance-and-store before returning.  The accumulated trace tr holds
the events of the vector path.  All raises land in the enclosing handler,
which returns the no-match selection. -/
def find_series_fallback (env : FindSeriesEnv) (concept region : String)
    (tr : List FSEvent) : SeriesSelection × List FSEvent :=
  match env.searchQueryGen with
  | .exn => (no_match_selection concept region, tr ++ [.searchQueryGen])
  | .ok _search_query =>
    match env.catalogSearch with
    | .exn => (no_match_selection concept region, tr ++ [.searchQueryGen, .catalogSearch])
    | .ok res =>
      if catalogNoneOrEmpty res then
        (no_match_selection concept region, tr ++ [.searchQueryGen, .catalogSearch])
      else
        let _series_mappings := convert_fred_results_to_mappings (res.getD [])
        match env.rankCatalog with
        | .exn => (no_match_selection concept region,
            tr ++ [.searchQueryGen, .catalogSearch, .rankCatalog])
        | .ok selection =>
          if selection.is_valid then
            match env.enhanceStore with
            | .exn => (no_match_selection concept region,
                tr ++ [.searchQueryGen, .catalogSearch, .rankCatalog, .enhanceStore])
            | .ok _ => (selection,
                tr ++ [.searchQueryGen, .catalogSearch, .rankCatalog, .enhanceStore])
          else (selection, tr ++ [.searchQueryGen, .catalogSearch, .rankCatalog])

/-- SeriesAnalyzer.find_series from backend/analysis.py: vector search first;
if it yields a truthy candidate list, rank it and return a valid selection
immediately; otherwise fall back to catalog discovery.  The enclosing
try/except turns any raise into the no-match selection. -/
def find_series (env : FindSeriesEnv) (user_query concept region : String) :
    SeriesSelection × List FSEvent :=
  match env.vectorSearch with
  | .exn => (no_match_selection concept region, [.vectorQuery])
  | .ok similar_series =>
    if pyTruthyOptList similar_series then
      match env.rankVector with
      | .exn => (no_match_selection concept region, [.vectorQuery, .rankVector])
      | .ok selection =>
        if selection.is_valid then (selection, [.vectorQuery, .rankVector])
        else find_series_fallback env concept region [.vectorQuery, .rankVector]
    else find_series_fallback env concept region [.vectorQuery]

/-- Reasoning text of the no-match selection is never empty. -/
theorem no_match_selection_reasoning_ne (c r : String) :
    (no_match_selection c r).reasoning ≠ "" := by
  simp only [no_match_selection]
  intro h
  have h2 := congrArg String.length h
  simp [String.length_append] at h2
  exact absurd h2.1.1.1 (by decide)

/-- Any raise among the invoked collaborators yields the no-match selection. -/
theorem find_series_raise_no_match (env : FindSeriesEnv) (uq c r : String)
    (h : ((find_series env uq c r).2.any (eventRaised env)) = true) :
    (find_series env uq c r).1 = no_match_selection c r := by
  obtain ⟨vs, rv, sq, cs, rc, es⟩ := env
  cases vs <;> cases rv <;> cases sq <;> cases cs <;> cases rc <;> cases es <;>
    simp only [find_series, find_series_fallback] at h ⊢ <;>
    split_ifs at h ⊢ <;>
    simp_all [eventRaised, Res.isExn]

/-! Claim C1: total degradation of find_series. -/

/-- C1: find_series is a total function of the collaborator behaviours —
including any collaborator raising — so no exception propagates; and whenever
an invoked internal step raises, the returned selection is the no-match
selection, whose series_id is None, confidence 0, region_match false and
reasoning a non-empty human-readable string. -/
theorem C1_find_series_never_raises (env : FindSeriesEnv) (uq c r : String)
    (h : ((find_series env uq c r).2.any (eventRaised env)) = true) :
    (find_series env uq c r).1 = no_match_selection c r ∧
    (no_match_selection c r).series_id = none ∧
    (no_match_selection c r).confidence = 0 ∧
    (no_match_selection c r).region_match = false ∧
    (no_match_selection c r).reasoning ≠ "" :=
  ⟨find_series_raise_no_match env uq c r h, rfl, rfl, rfl,
    no_match_selection_reasoning_ne c r⟩

/-- C1 witness: the degradation applied to the environment in which every
collaborator raises. -/
theorem C1_witness :
    (find_series ⟨Res.exn, Res.exn, Res.exn, Res.exn, Res.exn, Res.exn⟩
        "q" "inflation" "United States").1 =
      no_match_selection "inflation" "United States" :=
  (C1_find_series_never_raises ⟨Res.exn, Res.exn, Res.exn, Res.exn, Res.exn, Res.exn⟩
    "q" "inflation" "United States" (by decide)).1

/-! Claim C4: stage ordering and the no-match short circuit. -/

/-- Program order of the find_series stages. -/
def fsStageOrder : List FSEvent :=
  [.vectorQuery, .rankVector, .searchQueryGen, .catalogSearch, .rankCatalog,
   .enhanceStore]

/-- Boolean sublist test (order-preserving, not necessarily contiguous). -/
def isSublistOf : List FSEvent → List FSEvent → Bool
  | [], _ => true
  | _ :: _, [] => false
  | a :: l, b :: m => if a = b then isSublistOf l m else isSublistOf (a :: l) m

/-- The vector path completed without raising and failed to produce a valid
selection: its query returned a falsy candidate set, or the ranking of a
truthy candidate set returned an invalid selection. -/
def vectorPathFellThrough (env : FindSeriesEnv) : Bool :=
  match env.vectorSearch with
  | .exn => false
  | .ok similar =>
    if pyTruthyOptList similar then
      match env.rankVector with
      | .exn => false
      | .ok sel => !sel.is_valid
    else true

/-- Trace of any run follows the stage order, each stage at most once. -/
theorem find_series_trace_ordered (env : FindSeriesEnv) (uq c r : String) :
    isSublistOf (find_series env uq c r).2 fsStageOrder = true := by
  obtain ⟨vs, rv, sq, cs, rc, es⟩ := env
  cases vs <;> cases rv <;> cases sq <;> cases cs <;> cases rc <;> cases es <;>
    simp only [find_series, find_series_fallback] <;>
    (try split_ifs) <;> simp [isSublistOf, fsStageOrder]

/-- The catalog search is reached only after the vector path fell through. -/
theorem find_series_catalog_after_vector (env : FindSeriesEnv) (uq c r : String)
    (h : FSEvent.catalogSearch ∈ (find_series env uq c r).2) :
    vectorPathFellThrough env = true := by
  obtain ⟨vs, rv, sq, cs, rc, es⟩ := env
  cases vs <;> cases rv <;> cases sq <;> cases cs <;> cases rc <;> cases es <;>
    simp only [find_series, find_series_fallback, vectorPathFellThrough] at h ⊢ <;>
    (try split_ifs at h ⊢) <;> simp_all

/-- An empty catalog result short-circuits to the no-match selection with no
further oracle call. -/
theorem find_series_empty_catalog_short_circuit (env : FindSeriesEnv)
    (uq c r : String) (res : Option (List FredRow))
    (hcs : env.catalogSearch = Res.ok res) (hempty : catalogNoneOrEmpty res = true)
    (h : FSEvent.catalogSearch ∈ (find_series env uq c r).2) :
    (find_series env uq c r).1 = no_match_selection c r ∧
    FSEvent.rankCatalog ∉ (find_series env uq c r).2 ∧
    FSEvent.enhanceStore ∉ (find_series env uq c r).2 := by
  obtain ⟨vs, rv, sq, cs, rc, es⟩ := env
  cases vs <;> cases rv <;> cases sq <;> cases cs <;> cases rc <;> cases es <;>
    simp only [Res.ok.injEq, reduceCtorEq] at hcs <;>
    simp only [find_series, find_series_fallback] at h ⊢ <;>
    (try split_ifs at h ⊢) <;> simp_all

/-- C4: within one call the stages run in the fixed program order, each at
most once; the catalog path runs only after the semantic-index path returned
zero candidates or ranked an invalid selection; and a zero-hit catalog search
returns the no-match selection immediately, with no further oracle call. -/
theorem C4_stage_ordering (env : FindSeriesEnv) (uq c r : String) :
    isSublistOf (find_series env uq c r).2 fsStageOrder = true ∧
    (FSEvent.catalogSearch ∈ (find_series env uq c r).2 →
      vectorPathFellThrough env = true) ∧
    (∀ res, env.catalogSearch = Res.ok res → catalogNoneOrEmpty res = true →
      FSEvent.catalogSearch ∈ (find_series env uq c r).2 →
      (find_series env uq c r).1 = no_match_selection c r ∧
      FSEvent.rankCatalog ∉ (find_series env uq c r).2 ∧
      FSEvent.enhanceStore ∉ (find_series env uq c r).2) :=
  ⟨find_series_trace_ordered env uq c r,
   find_series_catalog_after_vector env uq c r,
   fun res hcs hempty h =>
     find_series_empty_catalog_short_circuit env uq c r res hcs hempty h⟩

/-- C4 witness: the ordering and short circuit applied to the environment in
which the semantic index returns no candidates and the catalog returns zero
hits. -/
theorem C4_witness :
    (find_series ⟨Res.ok none, Res.ok ⟨none, 0, "", false⟩, Res.ok "q",
        Res.ok (some []), Res.ok ⟨none, 0, "", false⟩, Res.ok ()⟩ "q" "c" "r").1 =
      no_match_selection "c" "r" :=
  ((C4_stage_ordering ⟨Res.ok none, Res.ok ⟨none, 0, "", false⟩, Res.ok "q",
      Res.ok (some []), Res.ok ⟨none, 0, "", false⟩, Res.ok ()⟩ "q" "c" "r").2.2
    (some []) rfl rfl (by decide)).1

/-! Claim C2: effect of enrichment-store failure on the returned selection. -/

/-- Concrete valid selection produced by the catalog ranking oracle. -/
def goodCatalogSelection : SeriesSelection :=
  ⟨some "GDP", mkRat 9 10, "strong match", true⟩

/-- Concrete catalog search hit. -/
def sampleFredRow : FredRow :=
  ⟨"GDP", "Gross Domestic Product", some "g1", some "notes", some "Quarterly",
    some "Billions", some "SAAR", some "2024-06-01"⟩

/-- Environment in which the semantic index is empty, the catalog path
produces a valid selection, and only the enrichment-store step raises. -/
def envEnrichFails : FindSeriesEnv :=
  ⟨Res.ok none, Res.ok goodCatalogSelection, Res.ok "query",
    Res.ok (some [sampleFredRow]), Res.ok goodCatalogSelection, Res.exn⟩

/-- C2 counterexample: with a valid catalog selection and a raising
enrichment step, find_series does not return that selection — the raise is
caught by the function-wide handler, which substitutes the no-match
selection; flipping only the enrichment behaviour to success returns the
catalog selection, so the enrichment failure alone changed the result. -/
theorem C2_counterexample :
    goodCatalogSelection.is_valid = true ∧
    (find_series envEnrichFails "q" "c" "r").1 = no_match_selection "c" "r" ∧
    (find_series { envEnrichFails with enhanceStore := Res.ok () } "q" "c" "r").1 =
      goodCatalogSelection ∧
    no_match_selection "c" "r" ≠ goodCatalogSelection := by
  refine ⟨by decide, by rfl, by rfl, ?_⟩
  intro h
  exact Option.noConfusion (congrArg SeriesSelection.series_id h)

/-- C2 amended: when the enrichment-store step is reached (the catalog path
produced a valid selection), a successful enrichment returns the catalog
selection unchanged, but a raising enrichment is caught by find_series's
outer handler and the caller receives the no-match selection instead; the
exception itself never propagates, yet the returned SeriesSelection does
change on enrichment failure. -/
theorem C2_enrichment_failure (env : FindSeriesEnv) (uq c r : String)
    (hmem : FSEvent.enhanceStore ∈ (find_series env uq c r).2) :
    ∀ sel0, env.rankCatalog = Res.ok sel0 →
      (env.enhanceStore = Res.ok () → (find_series env uq c r).1 = sel0) ∧
      (env.enhanceStore = Res.exn → (find_series env uq c r).1 = no_match_selection c r) := by
  obtain ⟨vs, rv, sq, cs, rc, es⟩ := env
  intro sel0 hrc
  cases vs <;> cases rv <;> cases sq <;> cases cs <;> cases rc <;> cases es <;>
    simp only [Res.ok.injEq, reduceCtorEq] at hrc <;>
    simp only [find_series, find_series_fallback] at hmem ⊢ <;>
    (try split_ifs at hmem ⊢) <;> simp_all

/-- C2 witness: the amended statement applied to the concrete environment
whose enrichment step succeeds, with the membership and behaviour hypotheses
discharged on concrete data. -/
theorem C2_witness :
    (find_series { envEnrichFails with enhanceStore := Res.ok () } "q" "c" "r").1 =
      goodCatalogSelection :=
  (C2_enrichment_failure { envEnrichFails with enhanceStore := Res.ok () }
      "q" "c" "r" (by decide) goodCatalogSelection rfl).1 rfl

/-! Enrichment and storage (SeriesAnalyzer._enhance_and_store_series together
with VectorDBConfig.series_exists and store_series).  The semantic index is
the keyed store written by Pinecone upsert; its state is an association list
from embedding identifiers to stored records. -/

/-- SeriesEnhancement from backend/schemas.py. -/
structure SeriesEnhancement where
  description : String
  common_uses : List String
  related_concepts : List String
  keywords : List String
  category : String
  region : String
deriving DecidableEq, Repr

/-- Fields of the FRED series info object read by the code, each possibly
absent (the title is read with a raising [] access, the rest with .get). -/
structure FredSeriesInfo where
  title : Option String
  units : Option String
  frequency : Option String
  seasonal_adjustment : Option String
  notes : Option String
  last_updated : Option String
deriving DecidableEq, Repr

/-- SeriesMapping.from_fred_series from backend/schemas.py.  The combined
keyword list goes through a Python set, whose iteration order is not
specified; it is modelled as order-preserving deduplication. -/
def SeriesMapping.from_fred_series (series_id : String) (series_info : FredSeriesInfo)
    (enhanced_info : SeriesEnhancement) (keywords : Option (List String)) :
    SeriesMapping :=
  let metadata : List (String × String) :=
    [("title", series_info.title.getD ""), ("units", series_info.units.getD ""),
     ("frequency", series_info.frequency.getD ""),
     ("seasonal_adjustment", series_info.seasonal_adjustment.getD ""),
     ("notes", series_info.notes.getD ""),
     ("last_updated", series_info.last_updated.getD "")]
  { series_id := series_id
    embedding_id := "series_" ++ series_id
    title := series_info.title.getD ""
    keywords := (keywords.getD [] ++ enhanced_info.keywords).dedup
    region := enhanced_info.region
    category := enhanced_info.category
    description := enhanced_info.description
    frequency := series_info.frequency.getD ""
    units := series_info.units.getD ""
    seasonal_adjustment := some (series_info.seasonal_adjustment.getD "")
    common_uses := enhanced_info.common_uses
    related_concepts := enhanced_info.related_concepts
    metadata := metadata }

/-- State of the semantic index: stored records keyed by embedding id. -/
abbrev IndexState := List (String × PineconeDict)

/-- Number of index entries stored under a key. -/
def countKey (st : IndexState) (key : String) : Nat :=
  st.countP (fun q => decide (q.1 = key))

/-- Pinecone upsert: replace the record under the key if present, insert
otherwise. -/
def upsert (st : IndexState) (key : String) (v : PineconeDict) : IndexState :=
  if st.any (fun q => decide (q.1 = key)) then
    st.map (fun q => if q.1 = key then (key, v) else q)
  else st ++ [(key, v)]

/-- VectorDBConfig.series_exists: fetch of the key series_ prefix plus the
series id returns a non-empty vector set exactly when the key is stored. -/
def series_exists (st : IndexState) (series_id : String) : Bool :=
  st.any (fun q => decide (q.1 = "series_" ++ series_id))

/-- External calls made by _enhance_and_store_series, in program order. -/
inductive EnhEvent : Type
  | existsCheck
  | fetchInfo
  | enhanceOracle
  | embedText
  | upsertRecord
deriving DecidableEq, Repr

/-- Behaviour of the collaborators over one enhance-and-store call. -/
structure EnhanceEnv where
  getSeriesInfo : Res FredSeriesInfo
  enhanceOracle : Res SeriesEnhancement
  embedText : Res Unit
deriving Repr

/-- Outcome of one enhance-and-store call: the Python result (a raise
propagates to the caller of _enhance_and_store_series), the index state
after the call, and the calls made. -/
structure EnhanceOutcome where
  result : Res Unit
  state : IndexState
  trace : List EnhEvent
deriving Repr

/-- SeriesAnalyzer._enhance_and_store_series from backend/analysis.py: return
immediately when the series already exists in the index; otherwise fetch the
catalog record (the prompt construction raises if the title key is absent),
ask the oracle for an enhancement, build the mapping with from_fred_series,
embed its text and upsert it keyed by the mapping's embedding_id. -/
def enhance_and_store (env : EnhanceEnv) (st : IndexState)
    (series_id context_query : String) : EnhanceOutcome :=
  if series_exists st series_id then ⟨Res.ok (), st, [.existsCheck]⟩
  else
    match env.getSeriesInfo with
    | .exn => ⟨Res.exn, st, [.existsCheck, .fetchInfo]⟩
    | .ok series_info =>
      match series_info.title with
      | none => ⟨Res.exn, st, [.existsCheck, .fetchInfo]⟩
      | some _ =>
        match env.enhanceOracle with
        | .exn => ⟨Res.exn, st, [.existsCheck, .fetchInfo, .enhanceOracle]⟩
        | .ok enhanced_info =>
          let mapping := SeriesMapping.from_fred_series series_id series_info
            enhanced_info none
          match env.embedText with
          | .exn => ⟨Res.exn, st, [.existsCheck, .fetchInfo, .enhanceOracle, .embedText]⟩
          | .ok _ => ⟨Res.ok (),
              upsert st mapping.embedding_id mapping.to_pinecone_dict,
              [.existsCheck, .fetchInfo, .enhanceOracle, .embedText, .upsertRecord]⟩

/-- Upsert by replacement preserves the entry count of every key. -/
theorem countKey_upsert_le_one (st : IndexState) (key k : String) (v : PineconeDict)
    (h : countKey st k ≤ 1) : countKey (upsert st key v) k ≤ 1 := by
  unfold upsert
  split
  · rw [countKey, List.countP_map]
    have heq : ∀ x ∈ st,
        ((fun q => decide (q.1 = k)) ∘ (fun q => if q.1 = key then (key, v) else q)) x
            = true ↔
          (fun q => decide (q.1 = k)) x = true := by
      intro q _
      by_cases hq : q.1 = key <;> simp [Function.comp, hq]
    rw [List.countP_congr heq]
    exact h
  · rename_i hab
    rw [countKey, List.countP_append]
    by_cases hk : k = key
    · subst hk
      have h0 : List.countP (fun q => decide (q.1 = k)) st = 0 := by
        rw [List.countP_eq_zero]
        intro q hq
        simp only [decide_eq_true_eq]
        intro hqk
        exact absurd (List.any_eq_true.mpr ⟨q, hq, by simp [hqk]⟩) hab
      rw [h0]
      simp [List.countP_cons]
    · have hone : List.countP (fun q => decide (q.1 = k)) [(key, v)] = 0 := by
        simp [List.countP_cons, Ne.symm hk]
      rw [hone]
      simpa using h

/-- After an upsert the key is present. -/
theorem upsert_any_self (st : IndexState) (key : String) (v : PineconeDict) :
    (upsert st key v).any (fun q => decide (q.1 = key)) = true := by
  unfold upsert
  split
  · rename_i hab
    rw [List.any_map]
    rcases List.any_eq_true.mp hab with ⟨q, hq, hqk⟩
    refine List.any_eq_true.mpr ⟨q, hq, ?_⟩
    simp only [decide_eq_true_eq] at hqk
    simp [hqk]
  · simp

/-- An enhance-and-store call on an already stored series is a no-op: no
fetch, no oracle call, no upsert, state unchanged. -/
theorem enhance_and_store_skip (env : EnhanceEnv) (st : IndexState) (sid c : String)
    (h : series_exists st sid = true) :
    enhance_and_store env st sid c = ⟨Res.ok (), st, [EnhEvent.existsCheck]⟩ := by
  simp [enhance_and_store, h]

/-- The state after an enhance-and-store call is either unchanged or the
result of one upsert keyed by the embedding id derived from the series id. -/
theorem enhance_and_store_state_shape (env : EnhanceEnv) (st : IndexState)
    (sid c : String) :
    (enhance_and_store env st sid c).state = st ∨
    ∃ v, (enhance_and_store env st sid c).state = upsert st ("series_" ++ sid) v := by
  obtain ⟨gi, eo, em⟩ := env
  by_cases hex : series_exists st sid = true
  · left
    simp [enhance_and_store, hex]
  · cases gi with
    | exn => left; simp [enhance_and_store, hex]
    | ok info =>
      cases hti : info.title with
      | none => left; simp [enhance_and_store, hex, hti]
      | some t =>
        cases eo with
        | exn => left; simp [enhance_and_store, hex, hti]
        | ok enh =>
          cases em with
          | exn => left; simp [enhance_and_store, hex, hti]
          | ok u =>
            right
            refine ⟨(SeriesMapping.from_fred_series sid info enh none).to_pinecone_dict, ?_⟩
            simp [enhance_and_store, hex, hti, SeriesMapping.from_fred_series]

/-- A successful enhance-and-store call leaves the series present in the
index. -/
theorem enhance_and_store_ok_exists (env : EnhanceEnv) (st : IndexState)
    (sid c : String) (h : (enhance_and_store env st sid c).result = Res.ok ()) :
    series_exists (enhance_and_store env st sid c).state sid = true := by
  obtain ⟨gi, eo, em⟩ := env
  by_cases hex : series_exists st sid = true
  · simp [enhance_and_store, hex]
  · cases gi with
    | exn => simp [enhance_and_store, hex] at h
    | ok info =>
      cases hti : info.title with
      | none => simp [enhance_and_store, hex, hti] at h
      | some t =>
        cases eo with
        | exn => simp [enhance_and_store, hex, hti] at h
        | ok enh =>
          cases em with
          | exn => simp [enhance_and_store, hex, hti] at h
          | ok u =>
            have hk := upsert_any_self st ("series_" ++ sid)
              (SeriesMapping.from_fred_series sid info enh none).to_pinecone_dict
            simp [enhance_and_store, hex, hti]
            simpa [series_exists, SeriesMapping.from_fred_series] using hk

/-! Claim C5: idempotent enrichment-and-store. -/

/-- C5: when the series already exists the call performs no enrichment and no
upsert and leaves the index unchanged; any call changes the index at most by
one upsert keyed by the embedding id series_ prefix of the series id, so an
index holding at most one record per key keeps at most one; and after a
successful call a second call for the same series id is a no-op, its trace
stopping at the existence check. -/
theorem C5_enhance_idempotent (env env' : EnhanceEnv) (st : IndexState)
    (sid c c' k : String) :
    (series_exists st sid = true →
      enhance_and_store env st sid c = ⟨Res.ok (), st, [EnhEvent.existsCheck]⟩) ∧
    ((enhance_and_store env st sid c).state = st ∨
      ∃ v, (enhance_and_store env st sid c).state = upsert st ("series_" ++ sid) v) ∧
    (countKey st k ≤ 1 → countKey (enhance_and_store env st sid c).state k ≤ 1) ∧
    ((enhance_and_store env st sid c).result = Res.ok () →
      enhance_and_store env' (enhance_and_store env st sid c).state sid c' =
        ⟨Res.ok (), (enhance_and_store env st sid c).state, [EnhEvent.existsCheck]⟩) := by
  refine ⟨enhance_and_store_skip env st sid c, enhance_and_store_state_shape env st sid c,
    ?_, ?_⟩
  · intro h
    rcases enhance_and_store_state_shape env st sid c with h1 | ⟨v, h1⟩
    · rw [h1]; exact h
    · rw [h1]; exact countKey_upsert_le_one st ("series_" ++ sid) k v h
  · intro hok
    exact enhance_and_store_skip env' _ sid c' (enhance_and_store_ok_exists env st sid c hok)

/-- C5 witness: starting from the empty index, a first successful call stores
the record and a second call is a no-op. -/
theorem C5_witness :
    enhance_and_store ⟨Res.ok ⟨some "T", some "U", some "F", some "SA", some "N", some "L"⟩,
        Res.ok ⟨"d", [], [], ["kw"], "cat", "United States"⟩, Res.ok ()⟩
      (enhance_and_store ⟨Res.ok ⟨some "T", some "U", some "F", some "SA", some "N", some "L"⟩,
          Res.ok ⟨"d", [], [], ["kw"], "cat", "United States"⟩, Res.ok ()⟩ [] "GDP" "c").state
      "GDP" "c2" =
    ⟨Res.ok (),
      (enhance_and_store ⟨Res.ok ⟨some "T", some "U", some "F", some "SA", some "N", some "L"⟩,
          Res.ok ⟨"d", [], [], ["kw"], "cat", "United States"⟩, Res.ok ()⟩ [] "GDP" "c").state,
      [EnhEvent.existsCheck]⟩ :=
  (C5_enhance_idempotent
      ⟨Res.ok ⟨some "T", some "U", some "F", some "SA", some "N", some "L"⟩,
        Res.ok ⟨"d", [], [], ["kw"], "cat", "United States"⟩, Res.ok ()⟩
      ⟨Res.ok ⟨some "T", some "U", some "F", some "SA", some "N", some "L"⟩,
        Res.ok ⟨"d", [], [], ["kw"], "cat", "United States"⟩, Res.ok ()⟩
      [] "GDP" "c" "c2" "x").2.2.2 (by rfl)

/-! Query metadata extraction (QueryAnalyzer in backend/analysis.py). -/

/-- QueryMetadata from backend/schemas.py. -/
structure QueryMetadata where
  region : String
  start_date : Option String
  end_date : Option String
  economic_concept : String
deriving DecidableEq, Repr

/-- Behaviour of the two reasoning-oracle calls made by QueryAnalyzer:
the date-range extraction call and the concept/region extraction call. -/
structure ExtractEnv where
  dateOracle : Res GetDateRequests
  conceptOracle : Res QueryMetadata
deriving Repr

/-- QueryAnalyzer.extract_date_range from backend/analysis.py: the oracle
produces the structured requests, which are then resolved; a raise from the
oracle or a validation error from the resolver propagates. -/
def analyzer_extract_date_range (env : ExtractEnv) (now : PyDate) :
    Res (Option String × String) :=
  match env.dateOracle with
  | .exn => .exn
  | .ok date_requests =>
    match date_requests.extract_date_range now with
    | .error _ => .exn
    | .ok p => .ok p

/-- QueryAnalyzer.extract_metadata from backend/analysis.py: the date range
is computed first, outside the try block, so its failures propagate; the
concept/region oracle call sits inside the try block, and its failure yields
the default metadata with the raw query as concept, the default region and
null dates. -/
def extract_metadata (env : ExtractEnv) (now : PyDate) (query : String) :
    Res QueryMetadata :=
  match analyzer_extract_date_range env now with
  | .exn => .exn
  | .ok (start_date, end_date) =>
    match env.conceptOracle with
    | .exn => .ok ⟨DEFAULT_REGION, none, none, query⟩
    | .ok qm => .ok { qm with start_date := start_date, end_date := some end_date }

/-! Claim C9: failure policy of extract_metadata. -/

/-- C9 counterexample: extract_metadata does raise — a raising date-range
oracle call, or a date-range validation error (here a year period with no
duration), happens before the try block and propagates to the caller, so a
failure in the date step also blocks concept extraction. -/
theorem C9_counterexample :
    extract_metadata ⟨Res.exn, Res.ok ⟨"United States", none, none, "GDP"⟩⟩
        clock20240615 "us gdp" = Res.exn ∧
    extract_metadata
        ⟨Res.ok ⟨⟨Period.year, none, none⟩, ⟨Period.current, none, none⟩⟩,
          Res.ok ⟨"United States", none, none, "GDP"⟩⟩
        clock20240615 "us gdp" = Res.exn := by
  constructor <;> rfl

/-- C9 amended: the date range is computed first and a failure there (oracle
raise or date validation error) propagates, blocking concept extraction;
when the date step succeeds and the concept/region oracle fails, the caller
receives the default metadata whose concept is the raw query verbatim, whose
region is the fixed default and whose dates are null; when both succeed the
oracle metadata is returned with its dates overwritten by the computed
range. -/
theorem C9_extract_metadata_failure_policy (env : ExtractEnv) (now : PyDate)
    (query : String) :
    (env.dateOracle = Res.exn → extract_metadata env now query = Res.exn) ∧
    (∀ reqs, env.dateOracle = Res.ok reqs →
      (∀ err, reqs.extract_date_range now = Except.error err →
        extract_metadata env now query = Res.exn) ∧
      (∀ s e, reqs.extract_date_range now = Except.ok (s, e) →
        (env.conceptOracle = Res.exn →
          extract_metadata env now query =
            Res.ok ⟨DEFAULT_REGION, none, none, query⟩) ∧
        (∀ qm, env.conceptOracle = Res.ok qm →
          extract_metadata env now query =
            Res.ok { qm with start_date := s, end_date := some e }))) := by
  obtain ⟨dor, cor⟩ := env
  refine ⟨?_, ?_⟩
  · intro h
    subst h
    rfl
  · intro reqs hreq
    subst hreq
    refine ⟨?_, ?_⟩
    · intro err herr
      simp [extract_metadata, analyzer_extract_date_range, herr]
    · intro s e hok
      refine ⟨?_, ?_⟩
      · intro hc
        subst hc
        simp [extract_metadata, analyzer_extract_date_range, hok]
      · intro qm hc
        subst hc
        simp [extract_metadata, analyzer_extract_date_range, hok]

/-- C9 witness: the failure policy applied to the environment whose date step
succeeds (both sides current) and whose concept oracle raises, yielding the
default metadata for the raw query. -/
theorem C9_witness :
    extract_metadata
        ⟨Res.ok ⟨⟨Period.current, none, none⟩, ⟨Period.current, none, none⟩⟩, Res.exn⟩
        clock20240615 "us inflation last year" =
      Res.ok ⟨DEFAULT_REGION, none, none, "us inflation last year"⟩ :=
  (((C9_extract_metadata_failure_policy
        ⟨Res.ok ⟨⟨Period.current, none, none⟩, ⟨Period.current, none, none⟩⟩, Res.exn⟩
        clock20240615 "us inflation last year").2
      ⟨⟨Period.current, none, none⟩, ⟨Period.current, none, none⟩⟩ rfl).2
    none "2024-06-15" (by rfl)).1 rfl
